import Mathlib

/-!
Shallow embedding of the core logic of the FootballVideoAnalyzer repository
(`src/main.py` and `src/SiamakEditor.py`): tag management, clip bookkeeping,
frame-to-timecode conversion, playback-state resets and project (de)serialization,
together with theorems settling the specification's claims about them.

Modelling conventions:
- Python lists become `List`, Python dicts become insertion-ordered association
  lists (`List (String × String)` or, for JSON objects, `List (String × Json)`),
  with `d[k] = v` modelled by `dictSet` (update in place if present, else append).
- Python floats (the `fps` value produced by OpenCV) are modelled as rationals `ℚ`;
  `int(x)` for non-negative `x` is `Int.toNat ∘ Int.floor`.
- Qt widget updates (labels, sliders, list widgets, message boxes) carry no core
  state and are omitted; the attributes `clip_start`/`clip_end`, whose presence
  Python tests via `hasattr`, become `Option Int` fields.
-/

set_option autoImplicit false

namespace FVA

/-- A committed clip: the dict `{'start': ..., 'end': ..., 'tag': ...}` that
`add_clip` appends to `self.clips` (src/main.py lines 398-402). The Python key
`end` is a Lean keyword, rendered `end_`. -/
structure Clip where
  start : Int
  end_ : Int
  tag : String
deriving DecidableEq, Repr

/-- Truthiness of an optional Python string: `None` and `""` are falsy. -/
def truthy : Option String → Bool
  | none => false
  | some s => !s.isEmpty

/-- Python dict assignment `d[k] = v`: overwrite in place (at the key's
original position) when the key is present, otherwise append at the end
(Python dicts preserve insertion order and hold each key once). -/
def dictSet : List (String × String) → String → String → List (String × String)
  | [], k, v => [(k, v)]
  | (a, b) :: rest, k, v =>
    if a = k then (k, v) :: rest else (a, b) :: dictSet rest k v

/-- The fixed color palette `self.available_colors` (src/main.py lines 29-34,
identical in src/SiamakEditor.py). -/
def available_colors : List String :=
  ["#FF9999", "#99FF99", "#9999FF",
   "#FFFF99", "#FF99FF", "#99FFFF",
   "#FFCC99", "#CC99FF", "#FF6666",
   "#66FF66", "#6666FF"]

/-- The palette lookup `self.available_colors[n % len(self.available_colors)]`.
The index is always in bounds (`n % 11 < 11`), so the `getD` default is never
produced. -/
def paletteAt (n : Nat) : String :=
  available_colors.getD (n % available_colors.length) ""

/-- State of `TagManager.__init__` (src/main.py lines 24-34; the SiamakEditor
copy is byte-identical here). `available_colors` is a per-instance constant and
is kept as the global `available_colors` above. -/
structure TagManager where
  tags : List String
  shortcuts : List (String × String)
  tag_colors : List (String × String)
deriving DecidableEq, Repr

def TagManager.init : TagManager := ⟨[], [], []⟩

/-- `TagManager.get_tag_color` (src/main.py lines 44-45): `self.tag_colors.get(tag, "#DDDDDD")`. -/
def TagManager.get_tag_color (m : TagManager) (tag : String) : String :=
  (m.tag_colors.lookup tag).getD "#DDDDDD"

/-- `TagManager.get_tags` (src/main.py lines 47-48). -/
def TagManager.get_tags (m : TagManager) : List String :=
  m.tags

/-- `TagManager.get_shortcut` (src/main.py lines 50-51): `self.shortcuts.get(tag, None)`. -/
def TagManager.get_shortcut (m : TagManager) (tag : String) : Option String :=
  m.shortcuts.lookup tag

namespace MainPy

/-- `TagManager.add_tag` from src/main.py lines 36-42: if the tag is new it is
appended, a truthy shortcut is recorded, and the color is the supplied one when
truthy, else `self.available_colors[len(self.tags) % len(self.available_colors)]`
where `len(self.tags)` is evaluated AFTER the append. -/
def add_tag (m : TagManager) (tag : String) (shortcut : Option String)
    (color : Option String) : TagManager :=
  if tag ∈ m.tags then m
  else
    let tags' := m.tags ++ [tag]
    let shortcuts' := if truthy shortcut
      then dictSet m.shortcuts tag (shortcut.getD "")
      else m.shortcuts
    let c := if truthy color then color.getD "" else paletteAt tags'.length
    { tags := tags', shortcuts := shortcuts', tag_colors := dictSet m.tag_colors tag c }

end MainPy

namespace SiamakEditor

/-- `TagManager.add_tag` from src/SiamakEditor.py lines 36-42: identical to the
main.py version except that a new tag with a falsy color gets the fixed default
`"#DDDDDD"` instead of a palette color. -/
def add_tag (m : TagManager) (tag : String) (shortcut : Option String)
    (color : Option String) : TagManager :=
  if tag ∈ m.tags then m
  else
    let tags' := m.tags ++ [tag]
    let shortcuts' := if truthy shortcut
      then dictSet m.shortcuts tag (shortcut.getD "")
      else m.shortcuts
    let c := if truthy color then color.getD "" else "#DDDDDD"
    { tags := tags', shortcuts := shortcuts', tag_colors := dictSet m.tag_colors tag c }

end SiamakEditor

/-- One recorded `add_tag(name, shortcut, color)` call. -/
structure AddOp where
  name : String
  shortcut : Option String
  color : Option String
deriving DecidableEq, Repr

/-- Apply a sequence of `add_tag` calls (main.py implementation). -/
def applyAddsMain (ops : List AddOp) (m : TagManager) : TagManager :=
  ops.foldl (fun m op => MainPy.add_tag m op.name op.shortcut op.color) m

/-- Apply a sequence of `add_tag` calls (SiamakEditor.py implementation). -/
def applyAddsSiamak (ops : List AddOp) (m : TagManager) : TagManager :=
  ops.foldl (fun m op => SiamakEditor.add_tag m op.name op.shortcut op.color) m

/-- First-occurrence deduplication: keep each name once, at the position of its
first appearance. -/
def firstOcc (acc : List String) (names : List String) : List String :=
  names.foldl (fun acc n => if n ∈ acc then acc else acc ++ [n]) acc

/-! Analyzer session state and clip/playback operations (src/main.py). -/

/-- The core attributes of `FootballVideoAnalyzer` initialised in
`setup_video_playback` (src/main.py lines 331-338), plus the transient
`clip_start`/`clip_end` attributes (whose presence Python tests via `hasattr`,
here `Option Int`), the `cv2.VideoCapture` handle reduced to an open/closed
flag, and the text of the `tag_input` line edit. -/
structure AnalyzerState where
  video_path : String
  capOpen : Bool
  total_frames : Nat
  fps : ℚ
  current_frame : Int
  playing : Bool
  clips : List Clip
  clip_start : Option Int
  clip_end : Option Int
  tag_input : String
deriving DecidableEq, Repr

/-- The state right after `setup_video_playback` (src/main.py lines 331-338). -/
def initState : AnalyzerState :=
  { video_path := "", capOpen := false, total_frames := 0, fps := 30,
    current_frame := 0, playing := false, clips := [], clip_start := none,
    clip_end := none, tag_input := "" }

/-- `add_clip` (src/main.py lines 394-405): when both pending markers exist and
the tag text is non-empty, append `{'start': clip_start, 'end': clip_end,
'tag': tag}` (values exactly as stored, in that order) and delete both marker
attributes; in every other case nothing happens (no exception is raised). The
`clips_list.addItem` call is a Qt widget update and carries no core state. -/
def add_clip (s : AnalyzerState) : AnalyzerState :=
  match s.clip_start, s.clip_end with
  | some cs, some ce =>
    if s.tag_input.isEmpty then s
    else { s with
           clips := s.clips ++ [⟨cs, ce, s.tag_input⟩],
           clip_start := none,
           clip_end := none }
  | _, _ => s

/-- Modelled from the spec: `set_clip_start` is connected to the Set Start
button in `setup_video_playback` (src/main.py line 347) but is not defined
under src/; per the spec, `begin_marker(frame)` records a pending start frame,
last write wins. -/
def set_clip_start (s : AnalyzerState) (frame : Int) : AnalyzerState :=
  { s with clip_start := some frame }

/-- Modelled from the spec: `set_clip_end` is connected to the Set End button
in `setup_video_playback` (src/main.py line 348) but is not defined under
src/; per the spec, `end_marker(frame)` records a pending end frame. -/
def set_clip_end (s : AnalyzerState) (frame : Int) : AnalyzerState :=
  { s with clip_end := some frame }

/-- `self.tag_input.setText(t)`: the line edit holds the pending tag text. -/
def set_tag_input (s : AnalyzerState) (t : String) : AnalyzerState :=
  { s with tag_input := t }

/-- The error type of the spec's §4.2 and §7 commit contract. The source never
signals it: src/ contains no raise statement and no `ValidationError` class. -/
inductive CommitError where
  | validationError
deriving DecidableEq, Repr

/-- Modelled from the spec: the §4.2 `commit(tag_text)` contract, which — unlike
the code's `add_clip` — fails with `ValidationError` when a pending marker is
missing or the tag text is empty, and normalizes an out-of-order pair by
swapping. Defined only to contrast the spec's error signaling with the code's
silent no-op. -/
def spec_commit (s : AnalyzerState) : Except CommitError AnalyzerState :=
  match s.clip_start, s.clip_end with
  | some cs, some ce =>
    if s.tag_input = "" then .error .validationError
    else .ok { s with
               clips := s.clips ++ [⟨min cs ce, max cs ce, s.tag_input⟩],
               clip_start := none,
               clip_end := none }
  | _, _ => .error .validationError

/-- `update_frame` (src/main.py lines 313-329): only acts when a capture is
open and `self.playing`; `readPos` models the outcome of the external
`cap.read()` call — `some pos` when a frame was decoded and
`cap.get(CAP_PROP_POS_FRAMES)` returned `pos`, `none` at end of stream. Label,
slider and pixmap updates are presentation only. -/
def update_frame (s : AnalyzerState) (readPos : Option Nat) : AnalyzerState :=
  if s.capOpen && s.playing then
    match readPos with
    | some pos => { s with current_frame := pos }
    | none => s
  else s

/-- `new_project` (src/main.py lines 205-219): releases the capture and resets
`video_path`, `total_frames`, `current_frame`, `playing` and `clips`. It does
NOT touch `fps`, `clip_start`, `clip_end` or `tag_input`; the remaining lines
clear Qt widgets only. -/
def new_project (s : AnalyzerState) : AnalyzerState :=
  { s with
    capOpen := false,
    video_path := "",
    total_frames := 0,
    current_frame := 0,
    playing := false,
    clips := [] }

/-- `open_video`, the effective (second) definition at src/main.py lines
384-392, which overrides the one at lines 221-237: when a path was chosen it
stores the path, opens a capture, reads `total_frames` and `fps` from the video
(`vTotal`, `vFps`) and calls `update_frame`. It never touches `current_frame`
or `playing`. -/
def open_video (s : AnalyzerState) (path : String) (vTotal : Nat) (vFps : ℚ)
    (readPos : Option Nat) : AnalyzerState :=
  if path.isEmpty then s
  else
    update_frame
      { s with
        video_path := path,
        capOpen := true,
        total_frames := vTotal,
        fps := vFps } readPos

/-! Playback cursor operations. `next_frame`, `prev_frame` and `seek_video` are
connected as slots in `setup_video_playback` (src/main.py lines 345-352) but
are not defined under src/. -/

/-- Clamp a frame index into `[0, total]`. -/
def clampFrame (total : Nat) (x : Int) : Int :=
  max 0 (min (total : Int) x)

/-- Modelled from the spec: `next_frame` (`advance_one_frame`) is wired at
src/main.py line 346 but missing from src/; the spec says it moves
`current_frame` by +1, clamped to `[0, total_frames]`. -/
def next_frame (s : AnalyzerState) : AnalyzerState :=
  { s with current_frame := clampFrame s.total_frames (s.current_frame + 1) }

/-- Modelled from the spec: `prev_frame` (`retreat_one_frame`) is wired at
src/main.py line 345 but missing from src/; the spec says it moves
`current_frame` by -1, clamped to `[0, total_frames]`. -/
def prev_frame (s : AnalyzerState) : AnalyzerState :=
  { s with current_frame := clampFrame s.total_frames (s.current_frame - 1) }

/-- Modelled from the spec: `seek_video` is wired to the slider at src/main.py
line 352 but missing from src/; the spec says `seek(frame)` sets
`current_frame` directly, clamped to `[0, total_frames]`. -/
def seek_video (s : AnalyzerState) (n : Int) : AnalyzerState :=
  { s with current_frame := clampFrame s.total_frames n }

/-- One playback-cursor action. -/
inductive PlayOp where
  | step_forward
  | step_back
  | seek (n : Int)
deriving DecidableEq, Repr

def runPlayOp (s : AnalyzerState) : PlayOp → AnalyzerState
  | .step_forward => next_frame s
  | .step_back => prev_frame s
  | .seek n => seek_video s n

def runPlayOps (ops : List PlayOp) (s : AnalyzerState) : AnalyzerState :=
  ops.foldl runPlayOp s

/-! Frame-to-timecode conversion. -/

/-- Two-digit zero padding, as Qt renders the "HH"/"mm"/"ss" format fields for
values below 100. -/
def pad2 (n : Nat) : String :=
  if n < 10 then "0" ++ toString n else toString n

/-- `QTime(0, 0, 0).addSecs(seconds).toString("HH:mm:ss")`: `QTime` is a
time-of-day value, so adding seconds wraps past midnight — the stored time is
`seconds` modulo 86400, and the hour field is always below 24. -/
def qtimeString (seconds : Nat) : String :=
  let t := seconds % 86400
  pad2 (t / 3600) ++ ":" ++ pad2 (t % 3600 / 60) ++ ":" ++ pad2 (t % 60)

/-- The seconds computation of `frames_to_time` (src/main.py line 310):
`int(frames / self.fps) if self.fps > 0 else 0`. For non-negative `frames` and
positive `fps` the Python `int()` truncation equals the floor. -/
def framesToSeconds (fps : ℚ) (frames : Nat) : Nat :=
  if 0 < fps then (Int.floor ((frames : ℚ) / fps)).toNat else 0

/-- `frames_to_time` (src/main.py lines 308-311), with `self.fps` passed
explicitly. -/
def frames_to_time (fps : ℚ) (frames : Nat) : String :=
  qtimeString (framesToSeconds fps frames)

/-- Modelled from the spec: the renderer the specification describes —
zero-padded hours:minutes:seconds with hours unbounded (not capped or wrapped
at 24). Used to compare the code's rendering against the spec's words. -/
def spec_timecode (seconds : Nat) : String :=
  pad2 (seconds / 3600) ++ ":" ++ pad2 (seconds % 3600 / 60) ++ ":" ++ pad2 (seconds % 60)

/-! Project store: `save_data` / `load_data` (src/main.py lines 239-282),
modelled at the level of the parsed JSON document (`json.dump`/`json.load`
faithfully round-trip these values as text). -/

/-- A parsed JSON document as Python's `json` module produces it. Numbers are
restricted to integers, which covers every value this program writes. -/
inductive Json where
  | null
  | bool (b : Bool)
  | num (n : Int)
  | str (s : String)
  | arr (elems : List Json)
  | obj (fields : List (String × Json))
deriving Repr

/-- Whether the document is a JSON object (a Python dict, the only values with
a `.get` method). -/
def Json.isObj : Json → Bool
  | .obj _ => true
  | _ => false

/-- Whether the value is a JSON array. -/
def Json.isArr : Json → Bool
  | .arr _ => true
  | _ => false

/-- First binding of a key in an object's field list (keys written by this
program are unique). -/
def jsonGet (fields : List (String × Json)) (k : String) : Option Json :=
  fields.lookup k

/-- The dict `{'start': ..., 'end': ..., 'tag': ...}` of one clip as it appears
in the saved document. -/
def clipToJson (c : Clip) : Json :=
  .obj [("start", .num c.start), ("end", .num c.end_), ("tag", .str c.tag)]

def clipsToJson (cs : List Clip) : Json :=
  .arr (cs.map clipToJson)

/-- The two analyzer attributes the project store reads and writes. After
`load_data`, `self.clips` holds whatever JSON value the document carried, so the
field is `Json` here; a freshly authored session holds `clipsToJson` of its clip
list. -/
structure StoreState where
  video_path : String
  clips : Json
deriving Repr

/-- `save_data` (src/main.py lines 258-282): refuses (warning dialog, returns)
when no video is loaded (`self.video_path` falsy), otherwise writes the document
`{'video_path': self.video_path, 'clips': self.clips}`. File-dialog and I/O
failure paths concern the external filesystem and are out of the core. -/
def save_data (s : StoreState) : Option Json :=
  if s.video_path.isEmpty then none
  else some (.obj [("video_path", .str s.video_path), ("clips", s.clips)])

/-- `load_data` (src/main.py lines 239-256): runs `self.clips = data.get('clips', [])`
on the parsed document. A non-dict document has no `.get`, so the
`AttributeError` is caught by the `except` clause (error dialog, state
unchanged). Nothing else is validated and `video_path` is never read. The
subsequent `self.update_clips_list()` call is not defined under src/ and is
modelled from the spec as a presentation-layer refresh with no core effect. -/
def load_data (doc : Json) (s : StoreState) : Except String StoreState :=
  match doc with
  | .obj fields => .ok { s with clips := (jsonGet fields "clips").getD (.arr []) }
  | _ => .error "AttributeError"

/-! Helper lemmas. -/

/-- Evaluation helper: when the rational division comes out to the natural
number `k`, the seconds computation returns `k`. -/
theorem framesToSeconds_eq (fps : ℚ) (frames k : Nat) (h : 0 < fps)
    (hk : (frames : ℚ) / fps = (k : ℚ)) : framesToSeconds fps frames = k := by
  rw [framesToSeconds, if_pos h, hk]
  simp

theorem lookup_dictSet_self (m : List (String × String)) (k v : String) :
    (dictSet m k v).lookup k = some v := by
  induction m with
  | nil => simp [dictSet]
  | cons p rest ih =>
    rw [dictSet]
    by_cases h : p.1 = k
    · simp [h]
    · have hbeq : (k == p.1) = false := beq_eq_false_iff_ne.mpr (Ne.symm h)
      simp [h, List.lookup, hbeq, ih]

theorem MainPy.add_tag_tags (m : TagManager) (tag : String)
    (shortcut color : Option String) :
    (MainPy.add_tag m tag shortcut color).tags =
      if tag ∈ m.tags then m.tags else m.tags ++ [tag] := by
  rw [MainPy.add_tag]
  split <;> simp

theorem SiamakEditor.add_tag_tags_se (m : TagManager) (tag : String)
    (shortcut color : Option String) :
    (SiamakEditor.add_tag m tag shortcut color).tags =
      if tag ∈ m.tags then m.tags else m.tags ++ [tag] := by
  rw [SiamakEditor.add_tag]
  split <;> simp

theorem MainPy.add_tag_shortcuts (m : TagManager) (tag : String)
    (shortcut color : Option String) :
    (MainPy.add_tag m tag shortcut color).shortcuts =
      if tag ∈ m.tags then m.shortcuts
      else if truthy shortcut then dictSet m.shortcuts tag (shortcut.getD "")
      else m.shortcuts := by
  rw [MainPy.add_tag]
  split <;> simp

theorem SiamakEditor.add_tag_shortcuts_se (m : TagManager) (tag : String)
    (shortcut color : Option String) :
    (SiamakEditor.add_tag m tag shortcut color).shortcuts =
      if tag ∈ m.tags then m.shortcuts
      else if truthy shortcut then dictSet m.shortcuts tag (shortcut.getD "")
      else m.shortcuts := by
  rw [SiamakEditor.add_tag]
  split <;> simp

theorem MainPy.add_tag_mem (m : TagManager) (tag : String)
    (shortcut color : Option String) (h : tag ∈ m.tags) :
    MainPy.add_tag m tag shortcut color = m := by
  rw [MainPy.add_tag, if_pos h]

theorem applyAddsMain_tags (ops : List AddOp) (m : TagManager) :
    (applyAddsMain ops m).tags = firstOcc m.tags (ops.map AddOp.name) := by
  induction ops generalizing m with
  | nil => rfl
  | cons op rest ih =>
    have h1 : applyAddsMain (op :: rest) m =
        applyAddsMain rest (MainPy.add_tag m op.name op.shortcut op.color) := rfl
    rw [h1, ih, MainPy.add_tag_tags]
    rfl

theorem firstOcc_nodup (names : List String) (acc : List String) (h : acc.Nodup) :
    (firstOcc acc names).Nodup := by
  induction names generalizing acc with
  | nil => exact h
  | cons n rest ih =>
    have h1 : firstOcc acc (n :: rest) =
        firstOcc (if n ∈ acc then acc else acc ++ [n]) rest := rfl
    rw [h1]
    by_cases hn : n ∈ acc
    · rw [if_pos hn]
      exact ih acc h
    · rw [if_neg hn]
      exact ih (acc ++ [n]) (by simp [List.nodup_append, h, hn])

theorem mem_firstOcc (names : List String) (acc : List String) (x : String) :
    x ∈ firstOcc acc names ↔ x ∈ acc ∨ x ∈ names := by
  induction names generalizing acc with
  | nil => simp [firstOcc]
  | cons n rest ih =>
    have h1 : firstOcc acc (n :: rest) =
        firstOcc (if n ∈ acc then acc else acc ++ [n]) rest := rfl
    rw [h1, ih]
    by_cases hn : n ∈ acc
    · have hxn : ∀ x : String, x = n → x ∈ acc := by
        intro x hx
        rw [hx]
        exact hn
      simp only [if_pos hn, List.mem_cons]
      constructor
      · rintro (hx | hx)
        · exact Or.inl hx
        · exact Or.inr (Or.inr hx)
      · rintro (hx | hx | hx)
        · exact Or.inl hx
        · exact Or.inl (hxn _ hx)
        · exact Or.inr hx
    · simp only [if_neg hn, List.mem_append, List.mem_singleton, List.mem_cons]
      tauto

/-! Claim theorems. -/

/-- C4: for every sequence of `add(name, shortcut, color)` calls (implemented
by `TagManager.add_tag` in src/main.py), `get_tags()` lists each distinct name
exactly once, in first-insertion order (it equals the first-occurrence
deduplication of the call names, is duplicate-free, and contains exactly the
called names); and a call whose name is already present is a complete no-op,
returning the state unchanged — hence preserving tag order and the
first-registered shortcut and color. -/
theorem c4_add_unique_first_insertion_order (ops : List AddOp) (m : TagManager)
    (tag : String) (shortcut color : Option String) (h : tag ∈ m.tags) :
    (applyAddsMain ops TagManager.init).get_tags = firstOcc [] (ops.map AddOp.name) ∧
    (applyAddsMain ops TagManager.init).get_tags.Nodup ∧
    (∀ x, x ∈ (applyAddsMain ops TagManager.init).get_tags ↔ x ∈ ops.map AddOp.name) ∧
    MainPy.add_tag m tag shortcut color = m := by
  refine ⟨?_, ?_, ?_, MainPy.add_tag_mem m tag shortcut color h⟩
  · rw [TagManager.get_tags, applyAddsMain_tags]
    rfl
  · rw [TagManager.get_tags, applyAddsMain_tags]
    exact firstOcc_nodup _ _ (by simp [TagManager.init])
  · intro x
    rw [TagManager.get_tags, applyAddsMain_tags, mem_firstOcc]
    simp [TagManager.init]

/-- Witness for C4 at a concrete call sequence: `add("A")`, `add("B", "Ctrl+2")`,
a duplicate `add("A")`, then `add("C")`; and a duplicate call on a concrete
registry is the identity. -/
theorem c4_witness :
    (applyAddsMain [⟨"A", none, none⟩, ⟨"B", some "Ctrl+2", none⟩,
        ⟨"A", some "other", some "#123456"⟩, ⟨"C", none, none⟩]
      TagManager.init).get_tags = ["A", "B", "C"] ∧
    MainPy.add_tag ⟨["A"], [], [("A", "#99FF99")]⟩ "A" none none =
      ⟨["A"], [], [("A", "#99FF99")]⟩ := by
  constructor
  · exact (c4_add_unique_first_insertion_order
        [⟨"A", none, none⟩, ⟨"B", some "Ctrl+2", none⟩,
         ⟨"A", some "other", some "#123456"⟩, ⟨"C", none, none⟩]
        ⟨["A"], [], []⟩ "A" none none (by decide)).1.trans (by decide)
  · exact (c4_add_unique_first_insertion_order [] ⟨["A"], [], [("A", "#99FF99")]⟩
        "A" none none (by decide)).2.2.2

/-- C5 counterexample: the claim cites the `add_tag` of src/SiamakEditor.py as
well, but there a new tag registered with `color` unset receives the fixed
default `"#DDDDDD"`, which is not an element of the palette at all — so the
assigned color is not drawn from the palette at any index. -/
theorem c5_counterexample :
    "X" ∉ TagManager.init.tags ∧
    (SiamakEditor.add_tag TagManager.init "X" none none).get_tag_color "X" = "#DDDDDD" ∧
    "#DDDDDD" ∉ available_colors := by
  decide

/-- C5 amended: in the src/main.py `add_tag`, a new tag registered with `color`
unset is assigned the palette entry at index `(tag count after the insertion)
modulo the palette size — `len(self.tags)` is read after the append — so the
palette wraps and the assigned color is always a defined palette element; in
the src/SiamakEditor.py `add_tag`, such a tag instead receives the fixed
default `"#DDDDDD"`. -/
theorem c5_palette_color_assignment (m : TagManager) (tag : String)
    (shortcut : Option String) (h : tag ∉ m.tags) :
    (MainPy.add_tag m tag shortcut none).get_tag_color tag =
      paletteAt (m.tags.length + 1) ∧
    paletteAt (m.tags.length + 1) ∈ available_colors ∧
    (SiamakEditor.add_tag m tag shortcut none).get_tag_color tag = "#DDDDDD" := by
  refine ⟨?_, ?_, ?_⟩
  · rw [MainPy.add_tag, if_neg h]
    simp only [TagManager.get_tag_color, truthy]
    rw [lookup_dictSet_self]
    simp
  · have hlt : (m.tags.length + 1) % available_colors.length < available_colors.length :=
      Nat.mod_lt _ (by decide)
    simp only [paletteAt, List.getD_eq_getElem?_getD, List.getElem?_eq_getElem hlt,
      Option.getD_some]
    exact List.getElem_mem hlt
  · rw [SiamakEditor.add_tag, if_neg h]
    simp only [TagManager.get_tag_color, truthy]
    rw [lookup_dictSet_self]
    rfl

/-- Witness for C5 at a concrete input: adding `"X"` to the five-tag default
registry gives the palette entry at index `6 % 11 = 6`, namely `"#FFCC99"`. -/
theorem c5_witness :
    (MainPy.add_tag ⟨["DefCorner", "TraAttToDef", "CounterAttack", "SetPiece", "Goal"],
        [], []⟩ "X" none none).get_tag_color "X" = "#FFCC99" ∧
    (SiamakEditor.add_tag ⟨["DefCorner", "TraAttToDef", "CounterAttack", "SetPiece", "Goal"],
        [], []⟩ "X" none none).get_tag_color "X" = "#DDDDDD" := by
  have h := c5_palette_color_assignment
    ⟨["DefCorner", "TraAttToDef", "CounterAttack", "SetPiece", "Goal"], [], []⟩
    "X" none (by decide)
  exact ⟨h.1.trans (by decide), h.2.2⟩

/-- Component agreement of the two `add_tag` implementations: the color branch
is the only difference, so states agreeing on `tags` and `shortcuts` keep
agreeing on them under any sequence of calls. -/
theorem applyAdds_tags_shortcuts_agree (ops : List AddOp) (m₁ m₂ : TagManager)
    (ht : m₁.tags = m₂.tags) (hs : m₁.shortcuts = m₂.shortcuts) :
    (applyAddsMain ops m₁).tags = (applyAddsSiamak ops m₂).tags ∧
    (applyAddsMain ops m₁).shortcuts = (applyAddsSiamak ops m₂).shortcuts := by
  induction ops generalizing m₁ m₂ with
  | nil => exact ⟨ht, hs⟩
  | cons op rest ih =>
    have h1 : applyAddsMain (op :: rest) m₁ =
        applyAddsMain rest (MainPy.add_tag m₁ op.name op.shortcut op.color) := rfl
    have h2 : applyAddsSiamak (op :: rest) m₂ =
        applyAddsSiamak rest (SiamakEditor.add_tag m₂ op.name op.shortcut op.color) := rfl
    rw [h1, h2]
    refine ih _ _ ?_ ?_
    · rw [MainPy.add_tag_tags, SiamakEditor.add_tag_tags_se, ht]
    · rw [MainPy.add_tag_shortcuts, SiamakEditor.add_tag_shortcuts_se, ht, hs]

/-- C10 counterexample: a single `add_tag("X")` call with no explicit color
already produces different color maps in the two implementations (palette entry
`"#99FF99"` in src/main.py versus the fixed `"#DDDDDD"` in
src/SiamakEditor.py), so the two `TagManager`s are not equivalent. -/
theorem c10_counterexample :
    (applyAddsMain [⟨"X", none, none⟩] TagManager.init).tag_colors ≠
      (applyAddsSiamak [⟨"X", none, none⟩] TagManager.init).tag_colors := by
  decide

/-- C10 amended: for every sequence of `add_tag` calls the two implementations
produce the same tag list and the same shortcut map; only the color maps can
differ (src/main.py draws new colors from the palette, src/SiamakEditor.py
assigns the fixed `"#DDDDDD"` to a new tag whose color is unset). -/
theorem c10_tag_managers_agree_except_colors (ops : List AddOp) :
    (applyAddsMain ops TagManager.init).get_tags =
      (applyAddsSiamak ops TagManager.init).get_tags ∧
    (applyAddsMain ops TagManager.init).shortcuts =
      (applyAddsSiamak ops TagManager.init).shortcuts := by
  have h := applyAdds_tags_shortcuts_agree ops TagManager.init TagManager.init rfl rfl
  exact ⟨h.1, h.2⟩

/-- C1 counterexample: with pending markers start 120, end 50 and tag `"Goal"`,
`add_clip` appends the clip with the values exactly as given — it does NOT
normalize `end_frame < start_frame` by swapping, contrary to the claim. -/
theorem c1_counterexample :
    (add_clip { initState with
        clip_start := some 120, clip_end := some 50, tag_input := "Goal" }).clips =
      [⟨120, 50, "Goal"⟩] ∧
    (⟨120, 50, "Goal"⟩ : Clip) ≠ ⟨50, 120, "Goal"⟩ := by
  decide

/-- C1 amended: `commit(tag_text)` (`add_clip`) fails — as a silent rejection,
leaving the clip list, the pending markers and the whole state exactly
unchanged — when either pending marker is missing or the tag text is empty;
when both markers are present and the tag text is non-empty it appends the clip
with start and end exactly as stored (no swap even when `end_frame <
start_frame`, and no failure) and clears both pending markers. -/
theorem c1_commit_failure_atomic_no_swap (s : AnalyzerState) :
    (s.clip_start = none ∨ s.clip_end = none ∨ s.tag_input = "" → add_clip s = s) ∧
    (∀ cs ce, s.clip_start = some cs → s.clip_end = some ce → s.tag_input ≠ "" →
      add_clip s = { s with
                     clips := s.clips ++ [⟨cs, ce, s.tag_input⟩],
                     clip_start := none,
                     clip_end := none }) := by
  constructor
  · rintro (h | h | h)
    · cases hce : s.clip_end <;> simp [add_clip, h, hce]
    · cases hcs : s.clip_start <;> simp [add_clip, h, hcs]
    · cases hcs : s.clip_start <;> cases hce : s.clip_end <;>
        simp [add_clip, hcs, hce, h, show ("" : String).isEmpty = true from rfl]
  · intro cs ce hcs hce htag
    have hne : s.tag_input.isEmpty = false :=
      Bool.eq_false_iff.mpr (fun hh => htag ((String.isEmpty_iff _).mp hh))
    simp [add_clip, hcs, hce, hne]

/-- Witness for C1 at concrete inputs: a commit with only an end marker is a
no-op, and a commit with markers 120/50 and tag `"Goal"` appends the clip
as given and clears the markers. -/
theorem c1_witness :
    add_clip { initState with clip_end := some 7 } =
      { initState with clip_end := some 7 } ∧
    add_clip { initState with
        clip_start := some 120, clip_end := some 50, tag_input := "Goal" } =
      { initState with clips := [⟨120, 50, "Goal"⟩], tag_input := "Goal" } := by
  constructor
  · exact (c1_commit_failure_atomic_no_swap _).1 (Or.inl rfl)
  · exact ((c1_commit_failure_atomic_no_swap _).2 120 50 rfl rfl
      (by decide)).trans (by decide)

/-- C8 counterexample: after `begin_marker(50)`, `end_marker(120)`,
`commit("Goal")` from the initial state, the immediately following commit with
no new markers does NOT fail with `ValidationError` — `add_clip` contains no
raise and returns normally with the state exactly unchanged (a silent no-op),
whereas the spec's §4.2 commit contract (`spec_commit`) signals
`ValidationError` at that very state. -/
theorem c8_counterexample :
    add_clip (add_clip (set_tag_input (set_clip_end (set_clip_start initState 50) 120)
        "Goal")) =
      add_clip (set_tag_input (set_clip_end (set_clip_start initState 50) 120) "Goal") ∧
    add_clip (set_tag_input (set_clip_end (set_clip_start initState 50) 120) "Goal") =
      { initState with clips := [⟨50, 120, "Goal"⟩], tag_input := "Goal" } ∧
    spec_commit { initState with clips := [⟨50, 120, "Goal"⟩], tag_input := "Goal" } =
      .error .validationError := by
  refine ⟨rfl, by decide, rfl⟩

/-- C8 amended: from any state, `begin_marker(50)` (`set_clip_start`),
`end_marker(120)` (`set_clip_end`), then `commit("Goal")` (`add_clip` with tag
text `"Goal"`) appends the clip `{start: 50, end: 120, tag: "Goal"}` at the end
of the clip list and clears both pending markers; an immediately following
commit with no new markers adds no clip and is a silent no-op returning the
state exactly unchanged — no `ValidationError` is signaled, although the spec's
§4.2 contract (`spec_commit`) would signal one at that state. -/
theorem c8_begin_end_commit_goal (s : AnalyzerState) :
    (add_clip (set_tag_input (set_clip_end (set_clip_start s 50) 120) "Goal")).clips =
      s.clips ++ [⟨50, 120, "Goal"⟩] ∧
    (add_clip (set_tag_input (set_clip_end (set_clip_start s 50) 120) "Goal")).clip_start =
      none ∧
    (add_clip (set_tag_input (set_clip_end (set_clip_start s 50) 120) "Goal")).clip_end =
      none ∧
    add_clip (add_clip (set_tag_input (set_clip_end (set_clip_start s 50) 120) "Goal")) =
      add_clip (set_tag_input (set_clip_end (set_clip_start s 50) 120) "Goal") ∧
    spec_commit (add_clip (set_tag_input (set_clip_end (set_clip_start s 50) 120) "Goal")) =
      .error .validationError := by
  exact ⟨rfl, rfl, rfl, rfl, rfl⟩

/-- C7 counterexample: `new_project` on a session whose video ran at 25 fps
leaves `fps` at 25 (not the documented initial 30), and `open_video` on a
paused session positioned at frame 500 leaves `current_frame` at 500 (not 0) —
so neither operation resets the entire playback state. -/
theorem c7_counterexample :
    (new_project { initState with fps := 25 }).fps = 25 ∧ (25 : ℚ) ≠ 30 ∧
    (open_video { initState with current_frame := 500, total_frames := 1000 }
        "b.mp4" 900 30 none).current_frame = 500 ∧ (500 : Int) ≠ 0 := by
  refine ⟨rfl, by norm_num, rfl, by decide⟩

/-- C7 amended: `new_project` resets `video_path`, `total_frames`,
`current_frame`, `playing` and `clips` (and releases the capture) but leaves
`fps` unchanged; `open_video` (when the user picked a path and playback is
paused) sets `video_path`, `total_frames` and `fps` from the new video but
leaves `current_frame` and `playing` unchanged. -/
theorem c7_incomplete_playback_reset (s : AnalyzerState) (path : String)
    (vTotal : Nat) (vFps : ℚ) (readPos : Option Nat)
    (hplay : s.playing = false) (hpath : path ≠ "") :
    new_project s = { s with
                      capOpen := false,
                      video_path := "",
                      total_frames := 0,
                      current_frame := 0,
                      playing := false,
                      clips := [] } ∧
    (new_project s).fps = s.fps ∧
    open_video s path vTotal vFps readPos =
      { s with
        video_path := path,
        capOpen := true,
        total_frames := vTotal,
        fps := vFps } ∧
    (open_video s path vTotal vFps readPos).current_frame = s.current_frame ∧
    (open_video s path vTotal vFps readPos).playing = s.playing := by
  have hp : path.isEmpty = false :=
    Bool.eq_false_iff.mpr (fun hh => hpath ((String.isEmpty_iff _).mp hh))
  have h3 : open_video s path vTotal vFps readPos =
      { s with
        video_path := path,
        capOpen := true,
        total_frames := vTotal,
        fps := vFps } := by
    simp [open_video, hp, update_frame, hplay]
  refine ⟨rfl, rfl, h3, ?_, ?_⟩
  · rw [h3]
  · rw [h3]

/-- Witness for C7 at concrete inputs: `new_project` keeps a 25 fps setting,
and opening `"a.mp4"` (100 frames, 50 fps) from the initial paused state sets
exactly path, capture, frame count and fps. -/
theorem c7_witness :
    (new_project { initState with fps := 25 }).fps = 25 ∧
    open_video initState "a.mp4" 100 50 none =
      { initState with
        video_path := "a.mp4",
        capOpen := true,
        total_frames := 100,
        fps := 50 } := by
  constructor
  · exact (c7_incomplete_playback_reset { initState with fps := 25 } "x" 0 0 none rfl
      (by decide)).2.1
  · exact (c7_incomplete_playback_reset initState "a.mp4" 100 50 none rfl
      (by decide)).2.2.1

theorem clampFrame_nonneg (total : Nat) (x : Int) : 0 ≤ clampFrame total x :=
  le_max_left 0 _

theorem clampFrame_le (total : Nat) (x : Int) : clampFrame total x ≤ (total : Int) :=
  max_le (Int.ofNat_nonneg total) (min_le_left _ _)

/-- C9: for every sequence of `seek`, `advance_one_frame` and
`retreat_one_frame` calls (the slots `seek_video`, `next_frame`, `prev_frame`
wired in `setup_video_playback`), starting from any state whose cursor is in
range, `current_frame` stays within `[0, total_frames]`, and `total_frames` is
untouched by these operations. -/
theorem c9_cursor_stays_in_range (ops : List PlayOp) (s : AnalyzerState)
    (h0 : 0 ≤ s.current_frame) (h1 : s.current_frame ≤ (s.total_frames : Int)) :
    0 ≤ (runPlayOps ops s).current_frame ∧
    (runPlayOps ops s).current_frame ≤ ((runPlayOps ops s).total_frames : Int) ∧
    (runPlayOps ops s).total_frames = s.total_frames := by
  induction ops generalizing s with
  | nil => exact ⟨h0, h1, rfl⟩
  | cons op rest ih =>
    have hstep : runPlayOps (op :: rest) s = runPlayOps rest (runPlayOp s op) := rfl
    have htot : (runPlayOp s op).total_frames = s.total_frames := by
      cases op <;> rfl
    have hb0 : 0 ≤ (runPlayOp s op).current_frame := by
      cases op <;> exact clampFrame_nonneg _ _
    have hb1 : (runPlayOp s op).current_frame ≤ ((runPlayOp s op).total_frames : Int) := by
      cases op <;> exact clampFrame_le _ _
    obtain ⟨a, b, c⟩ := ih (runPlayOp s op) hb0 hb1
    rw [hstep]
    exact ⟨a, b, c.trans htot⟩

/-- Witness for C9 at a concrete run: step forward, seek far past the end,
step back, starting from the initial state. -/
theorem c9_witness :
    0 ≤ (runPlayOps [PlayOp.step_forward, PlayOp.seek 100, PlayOp.step_back]
        initState).current_frame ∧
    (runPlayOps [PlayOp.step_forward, PlayOp.seek 100, PlayOp.step_back]
        initState).current_frame ≤
      ((runPlayOps [PlayOp.step_forward, PlayOp.seek 100, PlayOp.step_back]
        initState).total_frames : Int) ∧
    (runPlayOps [PlayOp.step_forward, PlayOp.seek 100, PlayOp.step_back]
        initState).total_frames = initState.total_frames :=
  c9_cursor_stays_in_range [PlayOp.step_forward, PlayOp.seek 100, PlayOp.step_back]
    initState (by decide) (by decide)

/-- C3 counterexample: at 2 592 000 frames and 30 fps the elapsed time is
86 400 seconds, i.e. exactly 24 hours; the code's `QTime`-based rendering wraps
past midnight and returns `"00:00:00"`, while the claim's unbounded-hours
rendering of the same seconds value is `"24:00:00"` — so hours ARE wrapped at
24, contrary to the claim. -/
theorem c3_counterexample :
    frames_to_time 30 2592000 = "00:00:00" ∧
    spec_timecode (framesToSeconds 30 2592000) = "24:00:00" ∧
    ("00:00:00" : String) ≠ "24:00:00" := by
  have h : framesToSeconds 30 2592000 = 86400 :=
    framesToSeconds_eq 30 2592000 86400 (by norm_num) (by norm_num)
  refine ⟨?_, ?_, by decide⟩
  · rw [frames_to_time, h]
    decide
  · rw [h]
    decide

/-- C3 amended: `frames_to_time` is pure and total (a function); it computes
`floor(frame_count / fps)` seconds when `fps > 0` and `0` seconds otherwise,
and renders the result as the zero-padded unbounded-hours `HH:MM:SS` rendering
of those seconds REDUCED MODULO 86 400 — hours wrap at 24 (time-of-day
semantics of `QTime`), they are not unbounded. The claim's concrete examples
all hold, including `"00:00:00"` for every non-positive fps. -/
theorem c3_timecode_wraps_at_24h (fps : ℚ) (frames : Nat) (g : ℚ) (n : Nat)
    (hg : g ≤ 0) :
    frames_to_time fps frames = spec_timecode (framesToSeconds fps frames % 86400) ∧
    (0 < fps → framesToSeconds fps frames = (Int.floor ((frames : ℚ) / fps)).toNat) ∧
    frames_to_time g n = "00:00:00" ∧
    frames_to_time 30 0 = "00:00:00" ∧
    frames_to_time 30 90 = "00:00:03" ∧
    frames_to_time 30 108000 = "01:00:00" := by
  refine ⟨rfl, ?_, ?_, ?_, ?_, ?_⟩
  · intro h
    rw [framesToSeconds, if_pos h]
  · rw [frames_to_time, framesToSeconds, if_neg (not_lt.mpr hg)]
    decide
  · rw [frames_to_time, framesToSeconds_eq 30 0 0 (by norm_num) (by norm_num)]
    decide
  · rw [frames_to_time, framesToSeconds_eq 30 90 3 (by norm_num) (by norm_num)]
    decide
  · rw [frames_to_time, framesToSeconds_eq 30 108000 3600 (by norm_num) (by norm_num)]
    decide

/-- Witness for C3 at concrete inputs: the code/spec renderings agree at 30 fps
and 90 frames, and a negative fps maps to `"00:00:00"`. -/
theorem c3_witness :
    frames_to_time 30 90 = spec_timecode (framesToSeconds 30 90 % 86400) ∧
    frames_to_time (-2) 7 = "00:00:00" := by
  have h := c3_timecode_wraps_at_24h 30 90 (-2) 7 (by norm_num)
  exact ⟨h.1, h.2.2.1⟩

theorem clipToJson_inj : ∀ a b : Clip, clipToJson a = clipToJson b → a = b := by
  rintro ⟨sa, ea, ta⟩ ⟨sb, eb, tb⟩ h
  simp only [clipToJson, Json.obj.injEq, List.cons.injEq, Prod.mk.injEq,
    Json.num.injEq, Json.str.injEq, true_and, and_true] at h
  obtain ⟨h1, h2, h3⟩ := h
  simp [h1, h2, h3]

theorem clipsToJson_inj : ∀ as bs : List Clip, clipsToJson as = clipsToJson bs → as = bs := by
  intro as bs h
  simp only [clipsToJson, Json.arr.injEq] at h
  exact List.map_injective_iff.mpr clipToJson_inj h

/-- C2 counterexample: for the project with video path `"match.mp4"` and three
clips, the saved document round-trips the clips but `load_data` never reads
`video_path` — loading into a fresh session leaves `video_path` at `""`, which
differs from `"match.mp4"`, so `deserialize(serialize(p)) ≠ p`. -/
theorem c2_counterexample :
    save_data ⟨"match.mp4", clipsToJson [⟨0, 10, "A"⟩, ⟨20, 30, "B"⟩, ⟨40, 50, "C"⟩]⟩ =
      some (.obj [("video_path", .str "match.mp4"),
        ("clips", clipsToJson [⟨0, 10, "A"⟩, ⟨20, 30, "B"⟩, ⟨40, 50, "C"⟩])]) ∧
    load_data (.obj [("video_path", .str "match.mp4"),
        ("clips", clipsToJson [⟨0, 10, "A"⟩, ⟨20, 30, "B"⟩, ⟨40, 50, "C"⟩])])
      ⟨"", .arr []⟩ =
      .ok ⟨"", clipsToJson [⟨0, 10, "A"⟩, ⟨20, 30, "B"⟩, ⟨40, 50, "C"⟩]⟩ ∧
    ("" : String) ≠ "match.mp4" := by
  refine ⟨rfl, rfl, by decide⟩

/-- C2 amended: the save/load round trip restores the clip list exactly —
`save_data` writes `{video_path, clips}` and `load_data` reads the `clips`
value back verbatim, and `clipsToJson` is injective so the clips are fully
recoverable — but `video_path` is NOT restored: `load_data` never reads it and
the session keeps its prior `video_path`. -/
theorem c2_round_trip_restores_clips_only (vp : String) (cs : List Clip)
    (s : StoreState) (h : vp ≠ "") :
    save_data ⟨vp, clipsToJson cs⟩ =
      some (.obj [("video_path", .str vp), ("clips", clipsToJson cs)]) ∧
    load_data (.obj [("video_path", .str vp), ("clips", clipsToJson cs)]) s =
      .ok ⟨s.video_path, clipsToJson cs⟩ ∧
    (∀ as bs : List Clip, clipsToJson as = clipsToJson bs → as = bs) := by
  have hp : vp.isEmpty = false :=
    Bool.eq_false_iff.mpr (fun hh => h ((String.isEmpty_iff _).mp hh))
  refine ⟨by simp [save_data, hp], rfl, clipsToJson_inj⟩

/-- Witness for C2 at a concrete project: video `"v.mp4"` with one clip. -/
theorem c2_witness :
    save_data ⟨"v.mp4", clipsToJson [⟨1, 2, "t"⟩]⟩ =
      some (.obj [("video_path", .str "v.mp4"), ("clips", clipsToJson [⟨1, 2, "t"⟩])]) ∧
    load_data (.obj [("video_path", .str "v.mp4"), ("clips", clipsToJson [⟨1, 2, "t"⟩])])
      ⟨"", .null⟩ = .ok ⟨"", clipsToJson [⟨1, 2, "t"⟩]⟩ := by
  have h := c2_round_trip_restores_clips_only "v.mp4" [⟨1, 2, "t"⟩] ⟨"", Json.null⟩
    (by decide)
  exact ⟨h.1, h.2.1⟩

/-- C6 counterexample: the document `{"clips": "bogus"}` is an object whose
`clips` field is not an array of clip objects, yet `load_data` succeeds and
stores the string verbatim — no `FormatError` is raised, contrary to the
claim. -/
theorem c6_counterexample :
    load_data (.obj [("clips", .str "bogus")]) ⟨"", .arr []⟩ =
      .ok ⟨"", .str "bogus"⟩ ∧
    (Json.str "bogus").isArr = false :=
  ⟨rfl, rfl⟩

/-- C6 amended: `load_data` fails (the caught-exception path) exactly when the
document is not an object — a present `clips` field of ANY shape is accepted
verbatim with no validation; a document without a `clips` key yields an empty
clip list; and `video_path` is never read from the document, the prior value
being kept. -/
theorem c6_load_validates_nothing (doc : Json) (s : StoreState)
    (fields : List (String × Json)) (v : Json) :
    (doc.isObj = false → load_data doc s = .error "AttributeError") ∧
    (jsonGet fields "clips" = none →
      load_data (.obj fields) s = .ok ⟨s.video_path, .arr []⟩) ∧
    (jsonGet fields "clips" = some v →
      load_data (.obj fields) s = .ok ⟨s.video_path, v⟩) := by
  obtain ⟨svp, scl⟩ := s
  refine ⟨?_, ?_, ?_⟩
  · intro h
    cases doc <;> simp_all [Json.isObj, load_data]
  · intro h
    simp [load_data, h]
  · intro h
    simp [load_data, h]

/-- Witness for C6 at concrete documents: a number document fails, and
`{"video_path": "x.mp4"}` (no `clips` key) succeeds with an empty clip list
while keeping the session's prior `video_path`. -/
theorem c6_witness :
    load_data (.num 3) ⟨"keep", .null⟩ = .error "AttributeError" ∧
    load_data (.obj [("video_path", .str "x.mp4")]) ⟨"keep", .null⟩ =
      .ok ⟨"keep", .arr []⟩ := by
  have h := c6_load_validates_nothing (.num 3) ⟨"keep", Json.null⟩
    [("video_path", Json.str "x.mp4")] Json.null
  exact ⟨h.1 rfl, h.2.1 rfl⟩

end FVA
